import Mathlib

/-!
Verification of the data curation and scoring engine of the `engie` trainer
scripts: `src/trainer/scripts/classify.py`, `src/trainer/scripts/prepare-data.py`
and `src/trainer/scripts/evaluate.py`.

Modelling conventions (shallow embedding):
* Python strings are `String` / `List Char`; `len` is the code-point count.
* Python floats are modelled as exact rationals (`ℚ`); `int(x)` is truncation
  toward zero (`pyInt`).
* The pseudorandom generator behind `random.seed` / `random.shuffle` is
  modelled by an explicit integer state threaded through the shuffle; the
  constant-seed discipline of the source is kept.
* External effects (the benchmark subprocess runs of `evaluate.py`) enter as
  explicit oracle parameters; everything else is pure, exactly as in the code.
-/

/-- Characters treated as whitespace by Python `str.strip` / `\s` (ASCII set). -/
def pyIsSpace (c : Char) : Bool :=
  c == ' ' || c == '\t' || c == '\n' || c == '\r' || c == Char.ofNat 11 || c == Char.ofNat 12

/-- Python `str.strip()`: drop leading and trailing whitespace. -/
def pyStrip (s : List Char) : List Char :=
  ((s.dropWhile pyIsSpace).reverse.dropWhile pyIsSpace).reverse

/-- Python `str.lower()` (ASCII fragment). -/
def pyLower (s : List Char) : List Char := s.map Char.toLower

/-- Python `needle in haystack` substring test. -/
def containsSub (needle : List Char) : List Char → Bool
  | [] => needle.isEmpty
  | c :: t => needle.isPrefixOf (c :: t) || containsSub needle t

/-- Python `haystack.startswith(pre)`. -/
def pyStartsWith (pre s : List Char) : Bool := pre.isPrefixOf s

/-- Python `haystack.count(needle)` for a non-empty needle:
non-overlapping occurrences, scanning left to right. -/
def countSubAux (n : List Char) : Nat → List Char → Nat
  | 0, _ => 0
  | _, [] => 0
  | fuel + 1, c :: t =>
      if n.isPrefixOf (c :: t) && !n.isEmpty then
        1 + countSubAux n fuel (t.drop (n.length - 1))
      else countSubAux n fuel t

def countSub (n hay : List Char) : Nat :=
  if n.isEmpty then hay.length + 1 else countSubAux n hay.length hay

/-- The backquote character (code point 96). -/
def btick : Char := Char.ofNat 96

/-- The apostrophe character (code point 39). -/
def apos : Char := Char.ofNat 39

/-- The three-character markdown fence. -/
def fence3 : List Char := [btick, btick, btick]

/-- Truncation toward zero, Python `int()` applied to a float. -/
def pyInt (q : ℚ) : ℤ := if q < 0 then ⌈q⌉ else ⌊q⌋

/-! ### A small regular-expression engine

`re.search` in `classify.py` is only ever used as a boolean, so the embedding
decides *existence* of a match; greedy/lazy distinctions are irrelevant for
that question.  The fragment below covers every construct appearing in the
four pattern banks: literals, classes, alternation, `*`/`+`/`?`, bounded
repetition, `\b`, `^`, `$`, `\s`, `\w`, `\d`, `.` and `[\s\S]`. -/

inductive RE where
  | eps
  | cls (f : Char → Bool)
  | seq (a b : RE)
  | alt (a b : RE)
  | star (a : RE)
  | wordB
  | bos
  | eos

/-- Python `\w` (ASCII fragment): letters, digits, underscore. -/
def reIsWord (c : Char) : Bool := c.isAlphanum || c == '_'

def optIsWord : Option Char → Bool
  | none => false
  | some c => reIsWord c

/-- Syntactic size of a pattern (to pre-compute a sufficient fuel). -/
def reSize : RE → Nat
  | RE.seq a b => reSize a + reSize b + 1
  | RE.alt a b => reSize a + reSize b + 1
  | RE.star a => reSize a + 1
  | _ => 1

/-- Existence-of-match, continuation style.  `p` is the previous character
(for `\b` and `^`), `s` the remaining input.  `fuel` decreases on every
recursive call (keeping the recursion structural, hence kernel-reducible);
every starred body in the banks consumes at least one character, so
`(s.length + 1) * (reSize r + 1) + 1` fuel is sufficient. -/
def reM : Nat → RE → Option Char → List Char → (Option Char → List Char → Bool) → Bool
  | 0, _, _, _, _ => false
  | _ + 1, RE.eps, p, s, k => k p s
  | _ + 1, RE.cls f, _, s, k =>
      match s with
      | [] => false
      | c :: r => f c && k (some c) r
  | fuel + 1, RE.seq a b, p, s, k => reM fuel a p s (fun p2 s2 => reM fuel b p2 s2 k)
  | fuel + 1, RE.alt a b, p, s, k => reM fuel a p s k || reM fuel b p s k
  | fuel + 1, RE.star a, p, s, k =>
      k p s || reM fuel a p s (fun p2 s2 => reM fuel (RE.star a) p2 s2 k)
  | _ + 1, RE.wordB, p, s, k => (optIsWord p != optIsWord s.head?) && k p s
  | _ + 1, RE.bos, p, s, k => p.isNone && k p s
  | _ + 1, RE.eos, p, s, k => (s.isEmpty || s == ['\n']) && k p s

/-- `re.search`: try a match starting at every position. -/
def reSearchAux (r : RE) (fuel : Nat) : Option Char → List Char → Bool
  | p, s =>
      reM fuel r p s (fun _ _ => true) ||
        (match s with
         | [] => false
         | c :: t => reSearchAux r fuel (some c) t)

def reSearch (r : RE) (s : List Char) : Bool :=
  reSearchAux r ((s.length + 1) * (reSize r + 1) + 1) none s

/-! Combinators used to transcribe the banks. -/

def reChar (c : Char) : RE := RE.cls (fun x => x == c)

def reCharCI (c : Char) : RE := RE.cls (fun x => x.toLower == c.toLower)

def reStr (s : String) : RE := (s.toList.map reChar).foldr RE.seq RE.eps

def reStrCI (s : String) : RE := (s.toList.map reCharCI).foldr RE.seq RE.eps

def reAlts : List RE → RE
  | [] => RE.cls (fun _ => false)
  | [r] => r
  | r :: rs => RE.alt r (reAlts rs)

def reAltCI (ss : List String) : RE := reAlts (ss.map reStrCI)

def reAltCS (ss : List String) : RE := reAlts (ss.map reStr)

def reOpt (r : RE) : RE := RE.alt r RE.eps

def rePlus (r : RE) : RE := RE.seq r (RE.star r)

/-- `r{0,n}`. -/
def reRep0To : Nat → RE → RE
  | 0, _ => RE.eps
  | n + 1, r => reOpt (RE.seq r (reRep0To n r))

def reWS : RE := RE.cls pyIsSpace

def reWSs : RE := RE.star reWS

def reWSp : RE := rePlus reWS

def reAnyAll : RE := RE.cls (fun _ => true)

def reDot : RE := RE.cls (fun c => c != '\n')

def reWord : RE := RE.cls reIsWord

def reDigit : RE := RE.cls Char.isDigit

def reSeqs : List RE → RE
  | [] => RE.eps
  | [r] => r
  | r :: rs => RE.seq r (reSeqs rs)

def wb : RE := RE.wordB

/-! ### Pattern banks (`classify.py` lines 21–96)

Each definition transcribes one compiled regex; `CI` marks `re.I` patterns. -/

def fenceRE : RE := reSeqs [reChar btick, reChar btick, reChar btick]

def codingPat1 : RE := reSeqs [wb,
  reAltCI ["write", "implement", "create", "build", "add", "generate"], reWSp,
  reOpt (reSeqs [reStrCI "a", reOpt (reCharCI 'n'), reWSp]),
  reRep0To 3 (RE.seq (rePlus reWord) reWSp),
  reAltCI ["function", "class", "component", "endpoint", "route", "script",
    "module", "handler", "middleware", "hook", "util", "api", "service",
    "page", "form", "modal", "button", "table"]]

def codingPat2 : RE := reSeqs [wb,
  reAltCI ["refactor", "rewrite", "optimize", "convert", "migrate", "port"], reWS]

def codingPat3 : RE := reSeqs [wb, reAltCI ["fix", "patch", "hotfix"], reWSp,
  reOpt (RE.seq (reStrCI "the") reWSp), reOpt (RE.seq (rePlus reWord) reWSp),
  reAltCI ["bug", "error", "issue", "crash", "typo"]]

def codingPat4 : RE := reSeqs [wb,
  reAltCI ["async", "await", "promise", "callback", "closure", "decorator",
    "generic", "interface", "enum", "struct"], wb]

def codingPat5 : RE := reSeqs [wb, reAlts [reStrCI "import", reStrCI "export",
  reStrCI "require", reSeqs [reStrCI "module", reChar '.', reStrCI "exports"],
  reSeqs [reStrCI "from", reWSp, RE.cls (fun c => c == apos || c == '"')]]]

def codingPat6 : RE := reSeqs [wb, reAltCS ["useState", "useEffect",
  "useCallback", "useMemo", "useRef", "useContext"], wb]

def codingPat7 : RE := reSeqs [wb, reAltCS ["SELECT", "INSERT", "UPDATE",
  "DELETE", "JOIN", "WHERE", "GROUP BY"], wb]

def codingPat8 : RE := reSeqs [wb,
  reAltCI ["npm", "yarn", "bun", "pip", "cargo", "maven", "gradle"], reWSp,
  reAltCI ["install", "add", "remove", "run"]]

def codingPat9 : RE := reSeqs [reChar '.', reAltCS ["js", "ts", "tsx", "jsx",
  "py", "rs", "go", "java", "rb", "css", "scss", "html", "sql", "sh", "yaml",
  "json"], wb]

def codingPat10 : RE := reSeqs [wb, reAltCI ["javascript", "typescript",
  "python", "rust", "golang", "java", "ruby", "swift", "kotlin"], wb]

def codingPat11 : RE := reSeqs [wb, reAlts [reStrCI "react",
  reSeqs [reStrCI "next", reOpt (reChar '.'), reStrCI "js"], reStrCI "express",
  reStrCI "fastify", reStrCI "django", reStrCI "flask", reStrCI "fastapi",
  reStrCI "spring", reStrCI "rails"], wb]

def codingPat12 : RE := reSeqs [wb,
  reAltCI ["prisma", "sequelize", "typeorm", "mongoose", "knex", "drizzle"], wb]

def codingPat13 : RE := reSeqs [fenceRE, RE.star reAnyAll, fenceRE]

def CODING_PATTERNS : List RE := [codingPat1, codingPat2, codingPat3,
  codingPat4, codingPat5, codingPat6, codingPat7, codingPat8, codingPat9,
  codingPat10, codingPat11, codingPat12, codingPat13]

def reasoningPat1 : RE := reSeqs [wb, reAltCI ["plan", "design", "architect",
  "strategy", "approach", "roadmap"], reWSp, reAltCI ["for", "to", "the", "how"]]

def reasoningPat2 : RE := reSeqs [wb, reAlts [
  reSeqs [reStrCI "should", reWSp, reAltCI ["i", "we"]],
  reSeqs [reStrCI "which", reWSp, reAltCI ["is", "would"], reWSp, reStrCI "better"],
  reSeqs [reStrCI "pros", reWSp, reStrCI "and", reWSp, reStrCI "cons"],
  reSeqs [reStrCI "trade", reOpt reDot, reStrCI "off", reOpt (reCharCI 's')]], wb]

def reasoningPat3 : RE := reSeqs [wb, reAltCI ["compare", "evaluate", "assess",
  "weigh", "consider"], reWSp, reAltCI ["the", "these", "different", "various"]]

def reasoningPat4 : RE := reSeqs [wb, reAlts [reStrCI "debug",
  reStrCI "diagnose", reStrCI "investigate", reStrCI "trace",
  reSeqs [reStrCI "root", reWSp, reStrCI "cause"],
  reSeqs [reStrCI "why", reWSp, reAltCI ["is", "does", "did", "would"]]], wb]

def reasoningPat5 : RE := reSeqs [wb, reAlts [reStrCI "error",
  reStrCI "exception", reSeqs [reStrCI "stack", reWSs, reStrCI "trace"],
  reStrCI "segfault", reStrCI "panic", reStrCI "crash", reStr "500",
  reStr "404", reStr "403", reStrCI "timeout"], wb]

def reasoningPat6 : RE := reSeqs [wb, reAlts [reStrCI "failing",
  reStrCI "broken", reSeqs [reStrCI "not", reWSp, reStrCI "working"],
  reSeqs [reStrCI "doesn", reOpt (reChar apos), reCharCI 't', reWSp, reStrCI "work"],
  reSeqs [reStrCI "wrong", reWSp, reStrCI "output"],
  reSeqs [reStrCI "returning", reWSp, reDigit, reDigit, reDigit]], wb]

def reasoningPat7 : RE := reSeqs [wb, reAlts [reStrCI "review",
  reStrCI "audit", reSeqs [reStrCI "security", reWSp, reStrCI "review"],
  reSeqs [reStrCI "code", reWSp, reStrCI "review"],
  reSeqs [reStrCI "look", reWSp, reStrCI "over"]], wb]

def reasoningPat8 : RE := reSeqs [wb, reAlts [
  reSeqs [reStrCI "explain", reWSp, reAltCI ["why", "how", "this", "the"]],
  reSeqs [reStrCI "what", reWSp, reAltCI ["does", "is"], reWSp,
    reAltCI ["this", "the"], reWSp, reAltCI ["code", "function", "class"]]], wb]

def reasoningPat9 : RE := reSeqs [wb, reAlts [reStrCI "microservice",
  reStrCI "monolith", reSeqs [reStrCI "event", reOpt reDot, reStrCI "driven"],
  reSeqs [reStrCI "pub", reOpt reDot, reStrCI "sub"], reStrCI "cqrs",
  reStrCI "saga", reStrCI "ddd"], wb]

def reasoningPat10 : RE := reSeqs [wb, reAlts [reStrCI "scaling",
  reStrCI "bottleneck", reStrCI "latency", reStrCI "throughput",
  reSeqs [reStrCI "performance", reWSp, reStrCI "issue"]], wb]

def reasoningPat11 : RE := reSeqs [wb, reAlts [
  reSeqs [reStrCI "step", reWSp, reStrCI "by", reWSp, reStrCI "step"],
  reSeqs [reStrCI "break", reWSp, reOpt (RE.seq (reStrCI "it") reWSp), reStrCI "down"],
  reSeqs [reStrCI "think", reWSp, reStrCI "through"],
  reSeqs [reStrCI "walk", reWSp, reStrCI "me", reWSp, reStrCI "through"]], wb]

def REASONING_PATTERNS : List RE := [reasoningPat1, reasoningPat2,
  reasoningPat3, reasoningPat4, reasoningPat5, reasoningPat6, reasoningPat7,
  reasoningPat8, reasoningPat9, reasoningPat10, reasoningPat11]

def toolsPat1 : RE := reSeqs [wb, reAlts [reStrCI "read", reStrCI "open",
  reStrCI "cat", reStrCI "view", reSeqs [reStrCI "show", reWSp, reStrCI "me"]],
  reWSp, reOpt (RE.seq (reStrCI "the") reWSp), reAltCI ["file", "contents", "source"]]

def toolsPat2 : RE := reSeqs [wb, reAlts [reStrCI "search", reStrCI "find",
  reStrCI "grep", reSeqs [reStrCI "look", reWSp, reStrCI "for"],
  reStrCI "locate"], reWSp, reAltCI ["in", "for", "the", "across"]]

def toolsPat3 : RE := reSeqs [wb, reAltCI ["list", "ls", "show"], reWSp,
  reOpt (RE.seq (reStrCI "the") reWSp), reAlts [
  reSeqs [reStrCI "file", reOpt (reCharCI 's')], reStrCI "directories",
  reStrCI "folders", reStrCI "structure"]]

def toolsPat4 : RE := reSeqs [wb, reAltCI ["run", "execute", "bash", "shell",
  "terminal", "command", "script"], wb]

def toolsPat5 : RE := reSeqs [wb, reStrCI "git", reWSp,
  reAltCI ["status", "log", "diff", "commit", "push", "pull", "branch",
    "merge", "rebase", "cherry", "stash", "reset", "checkout", "clone",
    "init", "add", "tag"], wb]

def toolsPat6 : RE := reSeqs [RE.bos, reStrCI "git", reWS]

def toolsPat7 : RE := reSeqs [wb,
  reAltCI ["docker", "kubectl", "terraform", "ansible", "helm"], reWS]

def toolsPat8 : RE := reSeqs [wb, reAltCI ["curl", "wget", "ssh", "scp", "rsync"], reWS]

def toolsPat9 : RE := reSeqs [reChar '[', reStr "Tool:", reWS]

def toolsPat10 : RE := reAltCS ["function_call", "tool_use", "tool_calls"]

def toolsPat11 : RE := reSeqs [wb, reAlts [reStrCI "navigate",
  reSeqs [reStrCI "go", reWSp, reStrCI "to"],
  reSeqs [reStrCI "open", reWSp, reStrCI "file"],
  reSeqs [reStrCI "jump", reWSp, reStrCI "to"],
  reSeqs [reStrCI "find", reWSp, reStrCI "the", reWSp, reStrCI "definition"]], wb]

def toolsPat12 : RE := reSeqs [wb, reAlts [reStrCI "codebase",
  reStrCI "repository", reStrCI "repo",
  reSeqs [reStrCI "project", reWSp, reStrCI "structure"],
  reSeqs [reStrCI "directory", reWSp, reStrCI "tree"]], wb]

def toolsPat13 : RE := reSeqs [wb, reAlts [reStrCI "deploy",
  reStrCI "deployment", reSeqs [reStrCI "ci", reOpt reDot, reStrCI "cd"],
  reStrCI "pipeline", reSeqs [reStrCI "github", reWSp, reStrCI "actions"],
  reStrCI "workflow"], wb]

def toolsPat14 : RE := reSeqs [wb, reAlts [reStrCI "environment",
  reStrCI "staging", reStrCI "production",
  reSeqs [reStrCI "dev", reWSp, reStrCI "server"]], wb]

def TOOLS_PATTERNS : List RE := [toolsPat1, toolsPat2, toolsPat3, toolsPat4,
  toolsPat5, toolsPat6, toolsPat7, toolsPat8, toolsPat9, toolsPat10,
  toolsPat11, toolsPat12, toolsPat13, toolsPat14]

def chatPat1 : RE := reSeqs [RE.bos, reAlts [reStrCI "hi", reStrCI "hey",
  reStrCI "hello", reStrCI "yo", reStrCI "sup", reStrCI "thanks",
  reSeqs [reStrCI "thank", reWSp, reStrCI "you"],
  reSeqs [reStrCI "good", reWSp, reAltCI ["morning", "afternoon", "evening"]]],
  RE.star (RE.cls (fun c => pyIsSpace c || c == '!' || c == '.' || c == ',' || c == '?')),
  RE.eos]

def chatPat2 : RE := reSeqs [wb, reAlts [
  reSeqs [reStrCI "how", reWSp, reStrCI "are", reWSp, reStrCI "you"],
  reSeqs [reStrCI "what", reOpt (reChar apos), reOpt (reCharCI 's'), reWSp, reStrCI "up"],
  reSeqs [reStrCI "how", reOpt (reChar apos), reOpt (reCharCI 's'), reWSp,
    reStrCI "it", reWSp, reStrCI "going"]], wb]

def chatPat3 : RE := reSeqs [wb, reAltCI ["status", "update", "standup",
  "summary", "summarize", "recap", "overview"], wb]

def chatPat4 : RE := reSeqs [wb, reAltCI ["remind", "reminder", "schedule",
  "timer", "alarm", "note", "memo"], wb]

def chatPat5 : RE := reSeqs [wb, reAlts [
  reSeqs [reStrCI "what", reWSp, reStrCI "time"],
  reSeqs [reStrCI "what", reWSp, reStrCI "day"],
  reStrCI "weather", reStrCI "calendar"], wb]

def chatPat6 : RE := reSeqs [wb, reAlts [
  reSeqs [reStrCI "who", reWSp, reAltCI ["is", "are"]],
  reSeqs [reStrCI "when", reWSp, reAltCI ["is", "did", "does", "will"]]], wb]

def chatPat7 : RE := reSeqs [wb, reAltCI ["jira", "ticket", "sprint", "board",
  "kanban", "backlog", "standup"], wb]

def chatPat8 : RE := reSeqs [wb,
  reAltCI ["slack", "message", "channel", "thread", "dm", "ping"], wb]

def CHAT_PATTERNS : List RE := [chatPat1, chatPat2, chatPat3, chatPat4,
  chatPat5, chatPat6, chatPat7, chatPat8]

/-! ### `classify.py` — `classify_prompt` -/

/-- `_score_patterns`: how many patterns of a bank match the text. -/
def score_patterns (text : List Char) (patterns : List RE) : Nat :=
  patterns.countP (fun p => reSearch p text)

/-- The four task-type categories, in the fixed evaluation order of the
`scores` dict of `classify_prompt` (insertion order of the dict literal). -/
inductive TaskCat where
  | coding
  | reasoning
  | tools
  | chat
deriving DecidableEq

/-- Position of a category in the fixed dict order. -/
def catIdx : TaskCat → Nat
  | TaskCat.coding => 0
  | TaskCat.reasoning => 1
  | TaskCat.tools => 2
  | TaskCat.chat => 3

/-- The string the Python function returns for each category. -/
def TaskCat.str : TaskCat → String
  | TaskCat.coding => "coding"
  | TaskCat.reasoning => "reasoning"
  | TaskCat.tools => "tools"
  | TaskCat.chat => "chat"

/-- The per-category score map (the Python `scores` dict). -/
structure Scores where
  coding : ℚ
  reasoning : ℚ
  tools : ℚ
  chat : ℚ
deriving DecidableEq

def scoreOf (s : Scores) : TaskCat → ℚ
  | TaskCat.coding => s.coding
  | TaskCat.reasoning => s.reasoning
  | TaskCat.tools => s.tools
  | TaskCat.chat => s.chat

/-- Context hints of `classify_prompt` (response metadata).  `tools_used`
and `response_length` are falsy in Python when empty / zero. -/
structure ClassifyHints where
  has_tool_calls : Bool := false
  has_code : Bool := false
  tools_used : List String := []
  response_length : Nat := 0

/-- `max(scores, key=scores.get)`: first key (in dict order) attaining the
maximum — later keys replace the running best only when strictly greater. -/
def bestCat (s : Scores) : TaskCat :=
  let b1 : TaskCat × ℚ := (TaskCat.coding, s.coding)
  let b2 : TaskCat × ℚ := if b1.2 < s.reasoning then (TaskCat.reasoning, s.reasoning) else b1
  let b3 : TaskCat × ℚ := if b2.2 < s.tools then (TaskCat.tools, s.tools) else b2
  let b4 : TaskCat × ℚ := if b3.2 < s.chat then (TaskCat.chat, s.chat) else b3
  b4.1

def scoreList (s : Scores) : List ℚ := [s.coding, s.reasoning, s.tools, s.chat]

/-- `sorted(scores.values(), reverse=True)`. -/
def sortedScores (s : Scores) : List ℚ :=
  List.insertionSort (fun a b => b ≤ a) (scoreList s)

/-- `gap = sorted_scores[0] - sorted_scores[1] if len > 1 else sorted_scores[0]`. -/
def scoreGap (s : Scores) : ℚ :=
  match sortedScores s with
  | a :: b :: _ => a - b
  | [a] => a
  | [] => 0

/-- Raw hit counts for the four banks (the Python `raw` dict). -/
structure RawHits where
  coding : Nat
  reasoning : Nat
  tools : Nat
  chat : Nat
deriving DecidableEq

def rawHitsOf (prompt : List Char) : RawHits :=
  { coding := score_patterns prompt CODING_PATTERNS
    reasoning := score_patterns prompt REASONING_PATTERNS
    tools := score_patterns prompt TOOLS_PATTERNS
    chat := score_patterns prompt CHAT_PATTERNS }

/-- Normalisation plus the context bonuses of `classify_prompt`
(lines 137–158 of `classify.py`). -/
def bonusScores (raw : RawHits) (promptLen : Nat) (promptHasFence : Bool)
    (h : ClassifyHints) : Scores :=
  let s0 : Scores :=
    { coding := (raw.coding : ℚ) / (CODING_PATTERNS.length : ℚ)
      reasoning := (raw.reasoning : ℚ) / (REASONING_PATTERNS.length : ℚ)
      tools := (raw.tools : ℚ) / (TOOLS_PATTERNS.length : ℚ)
      chat := (raw.chat : ℚ) / (CHAT_PATTERNS.length : ℚ) }
  let s1 := if h.has_tool_calls then { s0 with tools := s0.tools + 4/10 } else s0
  let s2 := if h.tools_used ≠ [] then
      { s1 with tools := s1.tools + (1/10) * (min h.tools_used.length 3 : ℚ) } else s1
  let s3 := if promptHasFence then { s2 with coding := s2.coding + 25/100 } else s2
  let s4 := if h.has_code && !h.has_tool_calls then
      { s3 with coding := s3.coding + 15/100 } else s3
  let s5 := if 2000 < h.response_length then
      { s4 with reasoning := s4.reasoning + 1/10 } else s4
  let hasAnySignal := 0 < raw.coding ∨ 0 < raw.reasoning ∨ 0 < raw.tools
  if promptLen < 30 ∧ ¬hasAnySignal then { s5 with chat := s5.chat + 5/10 }
  else if promptLen < 60 ∧ ¬hasAnySignal then { s5 with chat := s5.chat + 3/10 }
  else s5

structure ClassifyResult where
  type : TaskCat
  scores : Scores
  confidence : ℚ

/-- `classify_prompt` (`classify.py` lines 108–169). -/
def classify_prompt (prompt : List Char) (h : ClassifyHints) : ClassifyResult :=
  let raw := rawHitsOf prompt
  let scores := bonusScores raw prompt.length (containsSub fence3 prompt) h
  { type := bestCat scores
    scores := scores
    confidence := min 1 (scoreGap scores + 3/10) }

/-! ### `prepare-data.py` — records and the quality filter -/

/-- A raw data record.  Absent JSON fields read via `pair.get(k, "")` are
modelled as the empty string. -/
structure Pair where
  type : String := ""
  prompt : String := ""
  claude_response : String := ""
  local_response : String := ""
  ground_truth_diff : String := ""
  task_type : String := ""
deriving DecidableEq

/-- The resolved fields of `DOMAIN.get("data", {})` used by the filter. -/
structure DomainData where
  min_prompt_length : Nat := 20
  min_response_length : Nat := 50
deriving DecidableEq

/-- `is_ground_truth` (line 176): type is `ground_truth` and the diff is truthy. -/
def is_ground_truth (p : Pair) : Bool :=
  p.type == "ground_truth" && p.ground_truth_diff != ""

/-- `has_code_block` (line 172). -/
def has_code_block (text : String) : Bool := containsSub fence3 text.toList

/-- `count_code_blocks` (line 192): `text.count("```") // 2`. -/
def count_code_blocks (text : String) : Nat := countSub fence3 text.toList / 2

/-- `"I"` followed by an apostrophe and `"ll"`, avoiding a quoted apostrophe. -/
def iApos : String := "I" ++ String.mk [apos] ++ "ll"

/-- `CLAUDE_REJECT_PATTERNS` (lines 40–52). -/
def CLAUDE_REJECT_PATTERNS : List String :=
  [ "permission"
  , "Would you like me to proceed"
  , "Would you like me to create"
  , "I need your approval"
  , "approve"
  , iApos ++ " create the following files"
  , "Let me create"
  , iApos ++ " write"
  , "permission_denials"
  , "is_error"
  , "tool_use_id" ]

/-- `is_permission_garbage` (lines 180–189). -/
def is_permission_garbage (text : String) : Bool :=
  if text == "" then true
  else
    let textLower := pyLower text.toList
    let hits := CLAUDE_REJECT_PATTERNS.countP
      (fun pat => containsSub (pyLower pat.toList) textLower)
    if 3 ≤ hits then true
    else if pyStartsWith ("\x7b\"type\":".toList) (pyStrip text.toList)
        || pyStartsWith ("\x7b\"result\":".toList) (pyStrip text.toList) then true
    else false

/-- `filter_pair` (lines 196–269), with the domain minimum prompt length read
from the resolved domain config and `max_chars` defaulting to 24000. -/
def filter_pair (dd : DomainData) (domain_id : String) (p : Pair)
    (max_chars : Nat := 24000) : Bool :=
  if p.prompt.length < dd.min_prompt_length then false
  else
    let claude0 := if p.claude_response != "" then p.claude_response else p.ground_truth_diff
    if max_chars < p.prompt.length + claude0.length then false
    else if is_ground_truth p then
      if domain_id != "coding" then false
      else if p.ground_truth_diff.length < 100 then false
      else if !(p.ground_truth_diff.toList.contains '+') && !(p.ground_truth_diff.toList.contains '-') then false
      else true
    else
      let claude := p.claude_response
      let lcl := p.local_response
      if claude == "" || lcl == "" then false
      else if is_permission_garbage claude then false
      else if containsSub ("\"is_error\":true".toList) claude.toList
          || containsSub ("\"stop_reason\":null".toList) claude.toList then false
      else if domain_id == "coding" then
        if claude.length < 500 then false
        else if !(has_code_block claude) then false
        else if count_code_blocks claude < 1 then false
        else true
      else if domain_id == "reasoning" then decide (200 ≤ claude.length)
      else if domain_id == "tools" then decide (100 ≤ claude.length)
      else if domain_id == "chat" then decide (20 ≤ claude.length)
      else decide (500 ≤ claude.length)

/-- The per-record keep decision of the quality-filter stage of `main`
(lines 380–384): self-iterate and tool-trace records are appended without
calling `filter_pair`. -/
def keep_at_quality_stage (dd : DomainData) (domain_id : String) (p : Pair) : Bool :=
  p.type == "self_iterate" || p.type == "tool_trace" || filter_pair dd domain_id p

/-- The quality-filter stage of `main` as a whole (order-preserving). -/
def quality_stage (dd : DomainData) (domain_id : String) (ps : List Pair) : List Pair :=
  ps.filter (keep_at_quality_stage dd domain_id)

/-- The rejection-reason bookkeeping of `main` (lines 385–398), evaluated for
a record rejected by `filter_pair`. -/
def rejection_reason (domain_id : String) (p : Pair) : String :=
  let claude := p.claude_response
  if is_ground_truth p then "gt_too_short"
  else if claude == "" || p.local_response == "" then "missing_response"
  else if is_permission_garbage claude then "permission_garbage"
  else if domain_id == "coding" && decide (claude.length < 500) then "too_short"
  else if domain_id == "coding" && !(has_code_block claude) then "no_code_blocks"
  else "other"

/-! ### SHA-256 (for `prompt_hash`)

`hashlib.sha256` over the UTF-8 encoding of the canonicalised prompt,
hex digest truncated to 16 characters (`prepare-data.py` lines 272–274). -/

def w32 (n : Nat) : Nat := n % 4294967296

def rotr32 (n x : Nat) : Nat := w32 ((x >>> n) ||| (x <<< (32 - n)))

def shaS0 (x : Nat) : Nat := (rotr32 7 x) ^^^ (rotr32 18 x) ^^^ (x >>> 3)

def shaS1 (x : Nat) : Nat := (rotr32 17 x) ^^^ (rotr32 19 x) ^^^ (x >>> 10)

def shaB0 (x : Nat) : Nat := (rotr32 2 x) ^^^ (rotr32 13 x) ^^^ (rotr32 22 x)

def shaB1 (x : Nat) : Nat := (rotr32 6 x) ^^^ (rotr32 11 x) ^^^ (rotr32 25 x)

def shaK : List Nat :=
  [1116352408, 1899447441, 3049323471, 3921009573, 961987163,
   1508970993, 2453635748, 2870763221, 3624381080, 310598401,
   607225278, 1426881987, 1925078388, 2162078206, 2614888103,
   3248222580, 3835390401, 4022224774, 264347078, 604807628,
   770255983, 1249150122, 1555081692, 1996064986, 2554220882,
   2821834349, 2952996808, 3210313671, 3336571891, 3584528711,
   113926993, 338241895, 666307205, 773529912, 1294757372,
   1396182291, 1695183700, 1986661051, 2177026350, 2456956037,
   2730485921, 2820302411, 3259730800, 3345764771, 3516065817,
   3600352804, 4094571909, 275423344, 430227734, 506948616,
   659060556, 883997877, 958139571, 1322822218, 1537002063,
   1747873779, 1955562222, 2024104815, 2227730452, 2361852424,
   2428436474, 2756734187, 3204031479, 3329325298]

def shaH0 : List Nat :=
  [1779033703, 3144134277, 1013904242, 2773480762,
   1359893119, 2600822924, 528734635, 1541459225]

/-- `k` big-endian bytes of `n`. -/
def beBytes (k n : Nat) : List Nat :=
  (List.range k).map (fun i => (n >>> (8 * (k - 1 - i))) % 256)

/-- SHA-256 message padding over a byte list. -/
def shaPad (msg : List Nat) : List Nat :=
  let L := msg.length
  let z := (120 - (L + 1) % 64) % 64
  msg ++ [0x80] ++ List.replicate z 0 ++ beBytes 8 (8 * L)

def chunks64 : List Nat → List (List Nat)
  | [] => []
  | c :: t => (c :: t).take 64 :: chunks64 ((c :: t).drop 64)
termination_by l => l.length
decreasing_by simp only [List.length_cons, List.length_drop]; omega

def toWords : List Nat → List Nat
  | b0 :: b1 :: b2 :: b3 :: rest =>
      (((b0 * 256 + b1) * 256 + b2) * 256 + b3) :: toWords rest
  | _ => []

/-- Extend a 16-word schedule to 64 words. -/
def shaExtend (w : List Nat) : Nat → List Nat
  | 0 => w
  | n + 1 =>
      let i := w.length
      let next := w32 (shaS1 (w.getD (i - 2) 0) + w.getD (i - 7) 0 +
        shaS0 (w.getD (i - 15) 0) + w.getD (i - 16) 0)
      shaExtend (w ++ [next]) n

def shaRound (st : List Nat) (kw : Nat × Nat) : List Nat :=
  match st with
  | [a, b, c, d, e, f, g, hh] =>
      let ch := (e &&& f) ^^^ ((4294967295 ^^^ e) &&& g)
      let t1 := w32 (hh + shaB1 e + ch + kw.1 + kw.2)
      let mj := (a &&& b) ^^^ (a &&& c) ^^^ (b &&& c)
      let t2 := w32 (shaB0 a + mj)
      [w32 (t1 + t2), a, b, c, w32 (d + t1), e, f, g]
  | other => other

def shaCompress (hs : List Nat) (block : List Nat) : List Nat :=
  let w := shaExtend (toWords block) 48
  let st := (shaK.zip w).foldl shaRound hs
  (hs.zip st).map (fun pq => w32 (pq.1 + pq.2))

def sha256bytes (msg : List Nat) : List Nat :=
  let final := (chunks64 (shaPad msg)).foldl shaCompress shaH0
  (final.map (beBytes 4)).flatten

def hexChars : List Char := "0123456789abcdef".toList

def byteHex (b : Nat) : List Char :=
  [hexChars.getD (b / 16) '0', hexChars.getD (b % 16) '0']

def sha256hex (msg : List Nat) : List Char := (msg |> sha256bytes |>.map byteHex).flatten

/-- UTF-8 encoding of one character. -/
def utf8Char (c : Char) : List Nat :=
  let n := c.toNat
  if n < 128 then [n]
  else if n < 2048 then [192 ||| (n >>> 6), 128 ||| (n &&& 63)]
  else if n < 65536 then
    [224 ||| (n >>> 12), 128 ||| ((n >>> 6) &&& 63), 128 ||| (n &&& 63)]
  else
    [240 ||| (n >>> 18), 128 ||| ((n >>> 12) &&& 63),
     128 ||| ((n >>> 6) &&& 63), 128 ||| (n &&& 63)]

def utf8Encode (s : List Char) : List Nat := (s.map utf8Char).flatten

/-- The canonical form used by the deduplicator: `prompt.strip().lower()`. -/
def canonPrompt (s : String) : List Char := pyLower (pyStrip s.toList)

/-- `prompt_hash` (lines 272–274): sha256 hex digest of the canonical form,
truncated to 16 hex characters. -/
def prompt_hash (s : String) : String :=
  String.mk ((sha256hex (utf8Encode (canonPrompt s))).take 16)

/-! ### Deduplication and the deterministic split (`main`, lines 407–454) -/

/-- Membership in the `seen` set of hashes. -/
def seenHas : List String → String → Bool
  | [], _ => false
  | s :: ss, x => s == x || seenHas ss x

/-- The dedup loop of `main` (lines 408–414), accumulator-style. -/
def dedupGo : List String → List Pair → List Pair → List Pair
  | _, acc, [] => acc.reverse
  | seen, acc, p :: rest =>
      let h := prompt_hash p.prompt
      if seenHas seen h then dedupGo seen acc rest
      else dedupGo (h :: seen) (p :: acc) rest

/-- `main`'s dedup stage: keep the first record of each prompt-hash class. -/
def dedupPairs (ps : List Pair) : List Pair := dedupGo [] [] ps

/-- Specification-side reading of the dedup stage: keep the first record of
each class, drop all later members of that class, preserve order. -/
def keepFirstBy (key : Pair → String) : List Pair → List Pair
  | [] => []
  | p :: rest => p :: keepFirstBy key (rest.filter (fun q => !(key p == key q)))
termination_by l => l.length
decreasing_by
  simp only [List.length_cons]
  exact Nat.lt_succ_of_le (List.length_filter_le _ _)

/-- Stand-in for the fixed pseudorandom stream of Python's seeded Mersenne
Twister: any concrete deterministic generator preserves the property under
study (the split depends only on the input list once the seed is the
constant 42). -/
def lcgNext (st : Nat) : Nat := (st * 75 + 74) % 65537

/-- Swap two positions of a list (Python `x[i], x[j] = x[j], x[i]`). -/
def lswap (l : List α) (i j : Nat) : List α :=
  match l.get? i, l.get? j with
  | some a, some b => (l.set i b).set j a
  | _, _ => l

/-- `random.shuffle`: Fisher–Yates from the top index down to 1, drawing
`j = randbelow(i + 1)` from the deterministic stream. -/
def shuffleGo (st : Nat) : Nat → List α → List α
  | 0, l => l
  | i + 1, l =>
      let st2 := lcgNext st
      let j := st2 % (i + 2)
      shuffleGo st2 i (lswap l (i + 1) j)

/-- Python slice `l[:k]` for a possibly negative `k`. -/
def pySliceTo (l : List α) (k : ℤ) : List α :=
  if 0 ≤ k then l.take k.toNat else l.take ((l.length : ℤ) + k).toNat

/-- Python slice `l[k:]` for a possibly negative `k`. -/
def pySliceFrom (l : List α) (k : ℤ) : List α :=
  if 0 ≤ k then l.drop k.toNat else l.drop ((l.length : ℤ) + k).toNat

/-- The shuffle/split/rebalance tail of `main` (lines 424–454) producing the
train, validation and test partitions.  `rngPre` is the interpreter's RNG
state before `main` runs; `random.seed(42)` replaces it with the fixed
constant, so the result cannot depend on it.  The test partition models the
`valid[:min(5, len(valid))]` subset written for fresh runs. -/
def splitExamples (rngPre : Nat) (examples : List α) (splitQ : ℚ) :
    List α × List α × List α :=
  let _ := rngPre
  let shuffled := shuffleGo 42 (examples.length - 1) examples
  let splitIdx := pyInt ((shuffled.length : ℚ) * splitQ)
  let train := pySliceTo shuffled splitIdx
  let valid := pySliceFrom shuffled splitIdx
  if valid.length = 0 ∧ 1 < train.length then
    (train.dropLast, train.getLast?.toList, train.getLast?.toList.take 5)
  else (train, valid, valid.take 5)

/-! ### `evaluate.py` — code-block extraction

`extract_code_blocks` uses `re.findall(r"```(?:\w+)?\n(.*?)```", text, re.DOTALL)`:
at a match position, the fence is followed by the maximal run of word
characters, then a mandatory newline, then the lazily captured body up to the
next closing fence; scanning resumes after the match. -/

/-- Split the input at the first occurrence of a closing fence:
`some (body, rest)` with `rest` the text after the fence. -/
def findFence : List Char → Option (List Char × List Char)
  | [] => none
  | c :: t =>
      if pyStartsWith fence3 (c :: t) then some ([], (c :: t).drop 3)
      else match findFence t with
        | some (body, rest) => some (c :: body, rest)
        | none => none

/-- Attempt the block regex at the current position. -/
def blockAt (s : List Char) : Option (List Char × List Char) :=
  if pyStartsWith fence3 s then
    let afterLang := (s.drop 3).dropWhile reIsWord
    match afterLang with
    | nl :: body => if nl == '\n' then findFence body else none
    | [] => none
  else none

def extractBlocksAux : Nat → List Char → List (List Char)
  | 0, _ => []
  | _, [] => []
  | fuel + 1, c :: t =>
      match blockAt (c :: t) with
      | some (body, rest) => body :: extractBlocksAux fuel rest
      | none => extractBlocksAux fuel t

/-- `extract_code_blocks` (lines 79–83). -/
def extract_code_blocks (text : List Char) : List (List Char) :=
  extractBlocksAux text.length text

/-- `"\n".join(blocks)`. -/
def joinNl (blocks : List (List Char)) : List Char :=
  (blocks.intersperse ['\n']).flatten

/-! ### `difflib.SequenceMatcher` (`ratio` only, `isjunk=None`, autojunk on) -/

/-- Ascending positions of `c` in `b` — the entries of CPython's `b2j`. -/
def charIndices (b : List Char) (c : Char) : List Nat :=
  (List.range b.length).filter (fun j => b.getD j ' ' == c)

/-- `b2j` with the autojunk rule: for `len(b) >= 200`, characters occurring
more than `len(b) // 100 + 1` times are dropped from the index. -/
def smB2j (b : List Char) (c : Char) : List Nat :=
  if 200 ≤ b.length && b.length / 100 + 1 < (charIndices b c).length then []
  else charIndices b c

/-- Inner loop of `find_longest_match` over the candidate `j` positions of
row `i`; threads the row's new `j2len` map and the running best triple. -/
def flmRow (j2len : Nat → Nat) (i : Nat) :
    List Nat → ((Nat → Nat) × (Nat × Nat × Nat)) → ((Nat → Nat) × (Nat × Nat × Nat))
  | [], st => st
  | j :: js, (newf, best) =>
      let prev := if j = 0 then 0 else j2len (j - 1)
      let k := prev + 1
      let newf2 : Nat → Nat := fun x => if x = j then k else newf x
      let best2 := if best.2.2 < k then (i + 1 - k, j + 1 - k, k) else best
      flmRow j2len i js (newf2, best2)

/-- Rows `i, i+1, …` of the `find_longest_match` dynamic program;
`cnt` rows remain. -/
def flmRows (a : List Char) (b2j : Char → List Nat) (blo bhi : Nat) :
    Nat → Nat → (Nat → Nat) → (Nat × Nat × Nat) → (Nat × Nat × Nat)
  | 0, _, _, best => best
  | cnt + 1, i, f, best =>
      let js := (b2j (a.getD i ' ')).filter (fun j => decide (blo ≤ j) && decide (j < bhi))
      let st := flmRow f i js ((fun _ => 0), best)
      flmRows a b2j blo bhi cnt (i + 1) st.1 st.2

/-- The left extension loop of `find_longest_match` (no junk is ever set
with `isjunk=None`, so the junk conditions are vacuous). -/
def extLeft (a b : List Char) (alo blo : Nat) : Nat → (Nat × Nat × Nat) → (Nat × Nat × Nat)
  | 0, best => best
  | fuel + 1, (bi, bj, bs) =>
      if decide (alo < bi) && decide (blo < bj)
          && (a.getD (bi - 1) ' ' == b.getD (bj - 1) ' ') then
        extLeft a b alo blo fuel (bi - 1, bj - 1, bs + 1)
      else (bi, bj, bs)

/-- The right extension loop of `find_longest_match`. -/
def extRight (a b : List Char) (ahi bhi : Nat) : Nat → (Nat × Nat × Nat) → (Nat × Nat × Nat)
  | 0, best => best
  | fuel + 1, (bi, bj, bs) =>
      if decide (bi + bs < ahi) && decide (bj + bs < bhi)
          && (a.getD (bi + bs) ' ' == b.getD (bj + bs) ' ') then
        extRight a b ahi bhi fuel (bi, bj, bs + 1)
      else (bi, bj, bs)

/-- `SequenceMatcher.find_longest_match` on `a[alo:ahi]` / `b[blo:bhi]`. -/
def find_longest_match (a b : List Char) (b2j : Char → List Nat)
    (alo ahi blo bhi : Nat) : Nat × Nat × Nat :=
  let best := flmRows a b2j blo bhi (ahi - alo) alo (fun _ => 0) (alo, blo, 0)
  let best2 := extLeft a b alo blo best.1 best
  extRight a b ahi bhi ahi best2

/-- Total matched length collected by `get_matching_blocks`: the longest
block plus, recursively, the matches of the regions to its left and right
(the queue order of CPython does not affect the total). -/
def smMatchesIn (a b : List Char) (b2j : Char → List Nat) :
    Nat → Nat → Nat → Nat → Nat → Nat
  | 0, _, _, _, _ => 0
  | fuel + 1, alo, ahi, blo, bhi =>
      let m := find_longest_match a b b2j alo ahi blo bhi
      let i := m.1
      let j := m.2.1
      let k := m.2.2
      if k = 0 then 0
      else
        k + (if decide (alo < i) && decide (blo < j) then
              smMatchesIn a b b2j fuel alo i blo j else 0)
          + (if decide (i + k < ahi) && decide (j + k < bhi) then
              smMatchesIn a b b2j fuel (i + k) ahi (j + k) bhi else 0)

def smMatches (a b : List Char) : Nat :=
  smMatchesIn a b (smB2j b) (a.length + b.length + 1) 0 a.length 0 b.length

/-- `SequenceMatcher(None, a, b).ratio()`: `2*M / T`, or `1.0` for `T = 0`. -/
def seqMatchRatioQ (a b : List Char) : ℚ :=
  if a.length + b.length = 0 then 1
  else 2 * (smMatches a b : ℚ) / ((a.length : ℚ) + (b.length : ℚ))

/-! ### `evaluate.py` — the four sub-scores and `evaluate_task`

`int(max_weight * 0.2)` and friends are written `fracFloor w 2 10` = `w*2/10`
(exact-rational reading of the float constants).  Subprocess execution enters
as the oracle `exec`; `none` models a timeout or raised exception. -/

/-- The scoring-relevant fields of the resolved domain config (`DOMAIN`),
with the documented defaults for an absent config. -/
structure EvalScoring where
  structure_weight : Nat := 25
  correctness_weight : Nat := 40
  has_executable_tests : Bool := true
  keyword_checks : List String := []

structure TestCase where
  code : String := ""
  expected : String := ""

structure BenchTask where
  id : String := "unknown"
  category : String := "general"
  prompt : String := ""
  language : String := "python"
  test_cases : List TestCase := []
  requirements : List String := []
  gold_answer : String := ""

/-- Result of one isolated subprocess run; `none` = timeout/exception. -/
structure ExecOutcome where
  returncode : Int := 0
  stdout : String := ""

/-- `int(w * (num/den))` for the non-negative float literals of the scorers. -/
def fracFloor (w num den : Nat) : Nat := w * num / den

def structureKeywords : List String := ["def ", "function ", "class ", "const ", "let "]

def structureMarkers : List String := ["##", "**", "\n\n", "1.", "- "]

/-- `score_structure` (lines 86–139). -/
def score_structure (cfg : EvalScoring) (task : BenchTask) (response : String) : Nat :=
  let w := cfg.structure_weight
  if cfg.has_executable_tests then
    let blocks := extract_code_blocks response.toList
    if blocks.isEmpty then
      if structureKeywords.any (fun kw => containsSub kw.toList (pyLower response.toList))
      then fracFloor w 2 10 else 0
    else
      let lang := pyLower task.language.toList
      let code := joinNl blocks
      let sc := fracFloor w 6 10
      let sc :=
        if lang = "python".toList then
          let s1 := if containsSub "def ".toList code || containsSub "class ".toList code
                    then sc + fracFloor w 2 10 else sc
          if containsSub "return ".toList code || containsSub "print(".toList code
          then s1 + fracFloor w 2 10 else s1
        else if lang = "javascript".toList ∨ lang = "typescript".toList then
          let s1 := if containsSub "function ".toList code || containsSub "=>".toList code
                      || containsSub "const ".toList code
                    then sc + fracFloor w 2 10 else sc
          if containsSub "return ".toList code then s1 + fracFloor w 2 10 else s1
        else
          if 20 < (pyStrip code).length then sc + fracFloor w 4 10 else sc
      min sc w
  else
    let keywords := cfg.keyword_checks
    let sc := if 500 < response.length then fracFloor w 3 10
              else if 200 < response.length then fracFloor w 2 10 else 0
    let sc := if structureMarkers.any (fun m => containsSub m.toList response.toList)
              then sc + fracFloor w 3 10 else sc
    let sc := if !keywords.isEmpty then
        let found := keywords.countP
          (fun kw => containsSub (pyLower kw.toList) (pyLower response.toList))
        sc + w * 4 * found / (10 * keywords.length)
      else sc
    min sc w

/-- Pass/fail of a single test case (`score_correctness`, lines 166–187). -/
def testPassed (execOracle : String → Option ExecOutcome) (code : List Char)
    (tc : TestCase) : Bool :=
  tc.code != "" &&
    match execOracle (String.mk code ++ "\n" ++ tc.code) with
    | none => false
    | some r =>
        r.returncode == 0 &&
          (if tc.expected != ""
           then pyStrip r.stdout.toList == pyStrip tc.expected.toList
           else true)

/-- `score_correctness` (lines 142–211). -/
def score_correctness (cfg : EvalScoring) (execOracle : String → Option ExecOutcome)
    (task : BenchTask) (response : String) : Nat :=
  let w := cfg.correctness_weight
  if cfg.has_executable_tests then
    let tcs := task.test_cases
    if tcs.isEmpty then
      let blocks := extract_code_blocks response.toList
      if !blocks.isEmpty && decide (50 < (joinNl blocks).length)
      then fracFloor w 625 1000
      else fracFloor w 25 100
    else
      let blocks := extract_code_blocks response.toList
      if blocks.isEmpty then 0
      else
        let code := joinNl blocks
        let passed := tcs.countP (testPassed execOracle code)
        if tcs.length = 0 then fracFloor w 625 1000
        else passed * w / tcs.length
  else
    let reqs := task.requirements
    let sc := if 300 < response.length then fracFloor w 4 10
              else if 100 < response.length then fracFloor w 2 10 else 0
    let sc := if !reqs.isEmpty then
        let met := reqs.countP
          (fun req => containsSub (pyLower req.toList) (pyLower response.toList))
        sc + w * 6 * met / (10 * reqs.length)
      else sc + fracFloor w 3 10
    min sc w

/-- `score_similarity` (lines 214–231): hard-coded 0–20 range. -/
def score_similarity (task : BenchTask) (response : String) : Nat :=
  if task.gold_answer == "" then 10
  else
    let rblocks := extract_code_blocks response.toList
    let gblocks := extract_code_blocks task.gold_answer.toList
    if rblocks.isEmpty then 0
    else
      let rcode := pyStrip (joinNl rblocks)
      let gcode := if !gblocks.isEmpty then pyStrip (joinNl gblocks)
                   else pyStrip task.gold_answer.toList
      (⌊seqMatchRatioQ rcode gcode * 20⌋).toNat

/-- `score_completeness` (lines 234–252): hard-coded 0–15 range. -/
def score_completeness (task : BenchTask) (response : String) : Nat :=
  let reqs := task.requirements
  if reqs.isEmpty then
    if 200 < response.length ∧ extract_code_blocks response.toList ≠ [] then 12
    else if 100 < response.length then 8
    else 5
  else
    let met := reqs.countP
      (fun req => containsSub (pyLower req.toList) (pyLower response.toList))
    if reqs.length = 0 then 10
    else met * 15 / reqs.length

structure BenchResult where
  task_id : String
  category : String
  total_score : Nat
  structure_score : Nat
  correctness_score : Nat
  similarity_score : Nat
  completeness_score : Nat
  response_length : Nat
  has_code : Bool

/-- `evaluate_task` (lines 255–279) for a given model response (the HTTP call
producing the response and the wall-clock duration live outside the model). -/
def evaluate_task (cfg : EvalScoring) (execOracle : String → Option ExecOutcome)
    (task : BenchTask) (response : String) : BenchResult :=
  let st := score_structure cfg task response
  let co := score_correctness cfg execOracle task response
  let si := score_similarity task response
  let cm := score_completeness task response
  { task_id := task.id
    category := task.category
    total_score := st + co + si + cm
    structure_score := st
    correctness_score := co
    similarity_score := si
    completeness_score := cm
    response_length := response.length
    has_code := !(extract_code_blocks response.toList).isEmpty }

/-! ### Supporting lemmas for the split stage -/

theorem lswap_length (l : List α) (i j : Nat) : (lswap l i j).length = l.length := by
  unfold lswap
  cases hi : l.get? i <;> cases hj : l.get? j <;> simp [List.length_set]

theorem shuffleGo_length (st n : Nat) (l : List α) :
    (shuffleGo st n l).length = l.length := by
  induction n generalizing st l with
  | zero => rfl
  | succ i ih => simp [shuffleGo, ih, lswap_length]

/-- C4: the assembler's split is a pure function of the filtered+deduped
input and the split ratio; the pre-existing RNG state is overwritten by the
constant seed 42, so two runs over identical input produce identical train,
validation and test partitions. -/
theorem c4_split_deterministic {α : Type} (rngPre1 rngPre2 : Nat)
    (examples : List α) (splitQ : ℚ) :
    splitExamples rngPre1 examples splitQ = splitExamples rngPre2 examples splitQ := rfl

/-! ### C2 — trace records at the quality-filter stage -/

/-- A self-iteration record whose prompt is far below the default domain
minimum of 20 characters. -/
def shortTracePair : Pair := { type := "self_iterate", prompt := "hi" }

/-- C2 counterexample: a self-iteration record with a 2-character prompt
(shorter than the domain minimum 20) is *kept* by the quality-filter stage,
so checks 1–2 are not applied to it, contradicting the claim that such a
record is rejected. -/
theorem c2_counterexample :
    quality_stage {} "coding" [shortTracePair] = [shortTracePair] ∧
    shortTracePair.prompt.length < DomainData.min_prompt_length {} := by
  constructor
  · rfl
  · decide

/-- C2 amended: self-iteration and tool-trace records reaching the
quality-filter stage bypass *all* checks 1–7 — they are appended
unconditionally, without calling `filter_pair` (length screening for them
happens only at ingestion). -/
theorem c2_amended (dd : DomainData) (domain_id : String) (p : Pair)
    (h : p.type = "self_iterate" ∨ p.type = "tool_trace") :
    keep_at_quality_stage dd domain_id p = true := by
  unfold keep_at_quality_stage
  rcases h with h | h <;> simp [h]

theorem c2_amended_witness :
    keep_at_quality_stage {} "coding" shortTracePair = true :=
  c2_amended {} "coding" shortTracePair (Or.inl rfl)


/-! ### C5 — non-empty validation partition -/

/-- C5 counterexample: a single assembled example with split ratio 1.0
produces an *empty* validation partition — the rebalancing step only moves a
record when the train partition has more than one element
(`len(train) > 1`, line 434). -/
theorem c5_counterexample : (splitExamples 0 [(0 : Nat)] 1).2.1 = [] := by
  have hk : pyInt ((([(0 : Nat)] : List Nat).length : ℚ) * 1) = 1 := by
    norm_num [pyInt]
  have hsh : shuffleGo 42 (([(0 : Nat)] : List Nat).length - 1) [(0 : Nat)] = [0] := rfl
  simp only [splitExamples, hsh, hk]
  norm_num [pySliceFrom, pySliceTo]

/-- C5 amended: the validation partition is non-empty provided the assembled
list has at least two examples, or the split ratio is below 1; a single
example with ratio ≥ 1 defeats the `len(train) > 1` guard of the
rebalancing step, which otherwise moves the last train record into the
validation partition. -/
theorem c5_amended {α : Type} (rngPre : Nat) (examples : List α) (splitQ : ℚ)
    (hne : examples ≠ []) (hbig : 2 ≤ examples.length ∨ splitQ < 1) :
    (splitExamples rngPre examples splitQ).2.1 ≠ [] := by
  simp only [splitExamples]
  set shuffled := shuffleGo 42 (examples.length - 1) examples with hsh
  have hlen : shuffled.length = examples.length := shuffleGo_length _ _ _
  have hpos : 0 < examples.length := List.length_pos.mpr hne
  set k := pyInt ((shuffled.length : ℚ) * splitQ) with hk
  set train := pySliceTo shuffled k with htr
  set valid := pySliceFrom shuffled k with hv
  by_cases hvne : valid = []
  · -- the slice left validation empty: show the move step fires
    have hk0 : 0 ≤ k := by
      by_contra hneg
      push_neg at hneg
      have hdrop : valid = shuffled.drop ((shuffled.length : ℤ) + k).toNat := by
        rw [hv]; unfold pySliceFrom; rw [if_neg (by omega)]
      have hlt : ((shuffled.length : ℤ) + k).toNat < shuffled.length := by omega
      have := List.drop_eq_nil_iff.mp (hdrop ▸ hvne)
      omega
    have hge : shuffled.length ≤ k.toNat := by
      have hdrop : valid = shuffled.drop k.toNat := by
        rw [hv]; unfold pySliceFrom; rw [if_pos hk0]
      exact List.drop_eq_nil_iff.mp (hdrop ▸ hvne)
    have htr2 : train = shuffled := by
      rw [htr]; unfold pySliceTo; rw [if_pos hk0]
      exact List.take_of_length_le hge
    rcases hbig with htwo | hq
    · -- at least two examples: the guard holds and the popped record fills valid
      have hcond : valid.length = 0 ∧ 1 < train.length := by
        refine ⟨by simp [hvne], ?_⟩
        rw [htr2, hlen]; omega
      rw [if_pos hcond]
      have htrne : train ≠ [] := by
        rw [htr2]
        intro hnil
        rw [hnil] at hlen
        simp at hlen
        omega
      simp only [ne_eq]
      cases hgl : train.getLast? with
      | none => exact absurd (List.getLast?_eq_none_iff.mp hgl) htrne
      | some x => simp
    · -- ratio < 1 makes the split index smaller than the length: contradiction
      exfalso
      have hq0 : (0 : ℚ) < (shuffled.length : ℚ) := by
        rw [hlen]; exact_mod_cast hpos
      have hql : (shuffled.length : ℚ) * splitQ < shuffled.length := by nlinarith
      have hklt : k < (shuffled.length : ℤ) := by
        rw [hk]; unfold pyInt
        split
        · have h1 : ⌈(shuffled.length : ℚ) * splitQ⌉ ≤ 0 :=
            Int.ceil_le.mpr (by push_cast; linarith)
          have h2 : (0 : ℤ) < (shuffled.length : ℤ) := by rw [hlen]; exact_mod_cast hpos
          omega
        · have h1 := Int.floor_le ((shuffled.length : ℚ) * splitQ)
          have h2 : (⌊(shuffled.length : ℚ) * splitQ⌋ : ℚ) < (shuffled.length : ℚ) :=
            lt_of_le_of_lt h1 hql
          exact_mod_cast h2
      omega
  · -- validation non-empty already: the move step does not fire
    have hno : ¬(valid.length = 0 ∧ 1 < train.length) := by
      intro hc
      exact hvne (List.length_eq_zero.mp hc.1)
    rw [if_neg hno]
    exact hvne

theorem c5_amended_witness : (splitExamples 0 [(0 : Nat), 1] (9/10)).2.1 ≠ [] :=
  c5_amended 0 [0, 1] (9/10) (by decide) (Or.inl (by decide))

/-! ### C8 — ground-truth acceptance policy -/

/-- The spec's scenario record: a ground-truth pair whose diff is
`"+ added\n- removed"`. -/
def gtScenarioPair : Pair :=
  { type := "ground_truth"
    prompt := "please fix the broken data pipeline now"
    ground_truth_diff := "+ added\n- removed" }

/-- A ground-truth record that passes every check of the coding domain. -/
def gtAcceptedPair : Pair :=
  { type := "ground_truth"
    prompt := "please fix the broken data pipeline now"
    ground_truth_diff := "+ def handler(event):\n+     return process(event)\n- def handler(evt):\n-     return process(evt)\n- removed the legacy fallback branch" }

/-- C8 counterexample: the scenario diff `"+ added\n- removed"` has 17
characters, not 14 as the claim states (it is still below the 100-character
floor, so the record is rejected under `gt_too_short`). -/
theorem c8_counterexample :
    gtScenarioPair.ground_truth_diff.length = 17 ∧
    ¬gtScenarioPair.ground_truth_diff.length = 14 ∧
    filter_pair {} "coding" gtScenarioPair = false ∧
    rejection_reason "coding" gtScenarioPair = "gt_too_short" := by decide

/-- C8 amended: a ground-truth record is accepted only into the coding
domain and only if its diff is at least 100 characters and contains an
addition or deletion marker; the 17-character scenario diff
`"+ added\n- removed"` is rejected and reported under `gt_too_short`. -/
theorem c8_amended :
    (∀ (dd : DomainData) (domain_id : String) (p : Pair) (mc : Nat),
        is_ground_truth p = true → filter_pair dd domain_id p mc = true →
        domain_id = "coding" ∧ 100 ≤ p.ground_truth_diff.length ∧
          (p.ground_truth_diff.toList.contains '+' = true ∨
           p.ground_truth_diff.toList.contains '-' = true)) ∧
    filter_pair {} "coding" gtScenarioPair = false ∧
    rejection_reason "coding" gtScenarioPair = "gt_too_short" ∧
    gtScenarioPair.ground_truth_diff.length = 17 := by
  refine ⟨?_, by decide, by decide, by decide⟩
  intro dd domain_id p mc hgt hacc
  unfold filter_pair at hacc
  rw [hgt] at hacc
  simp only [if_true] at hacc
  split_ifs at hacc
  all_goals simp_all [Nat.not_lt, bne_iff_ne]
  all_goals (cases hcp : p.ground_truth_diff.toList.contains '+' <;> simp_all)

set_option maxRecDepth 4000 in
theorem c8_amended_witness :
    "coding" = "coding" ∧ 100 ≤ gtAcceptedPair.ground_truth_diff.length ∧
      (gtAcceptedPair.ground_truth_diff.toList.contains '+' = true ∨
       gtAcceptedPair.ground_truth_diff.toList.contains '-' = true) :=
  c8_amended.1 {} "coding" gtAcceptedPair 24000 (by decide) (by decide)

/-! ### Supporting lemmas for the classifier claims -/

instance : IsTotal ℚ (fun a b => b ≤ a) := ⟨fun a b => le_total b a⟩

instance : IsTrans ℚ (fun a b => b ≤ a) := ⟨fun _ _ _ hab hbc => le_trans hbc hab⟩

/-- The maximum of the four category scores. -/
def maxScore (s : Scores) : ℚ := max (max s.coding s.reasoning) (max s.tools s.chat)

/-- The runner-up entry of the descending sort (the code's `sorted_scores[1]`). -/
def secondScore (s : Scores) : ℚ := (sortedScores s).getD 1 0

theorem sortedScores_perm (s : Scores) : (sortedScores s).Perm (scoreList s) :=
  List.perm_insertionSort _ _

theorem sortedScores_sorted (s : Scores) :
    (sortedScores s).Sorted (fun a b => b ≤ a) :=
  List.sorted_insertionSort _ _

theorem sortedScores_shape (s : Scores) :
    ∃ a b c d, sortedScores s = [a, b, c, d] := by
  have hl : (sortedScores s).length = 4 := by
    rw [(sortedScores_perm s).length_eq]; rfl
  rcases e : sortedScores s with _ | ⟨a, _ | ⟨b, _ | ⟨c, _ | ⟨d, _ | ⟨x, t⟩⟩⟩⟩⟩ <;>
    rw [e] at hl <;> simp_all

theorem bestCat_le (s : Scores) (c : TaskCat) :
    scoreOf s c ≤ scoreOf s (bestCat s) := by
  cases c <;>
    (simp only [bestCat, scoreOf]; split_ifs <;> simp only [scoreOf] <;> linarith)

theorem bestCat_first (s : Scores) (c : TaskCat)
    (h : catIdx c < catIdx (bestCat s)) :
    scoreOf s c < scoreOf s (bestCat s) := by
  cases c <;>
    (simp only [bestCat, scoreOf, catIdx] at h ⊢;
     split_ifs at h ⊢ <;> simp_all [scoreOf, catIdx] <;> linarith)

theorem sorted_head_eq_max (s : Scores) (a b c d : ℚ)
    (he : sortedScores s = [a, b, c, d]) : a = maxScore s := by
  have hperm : ([a, b, c, d] : List ℚ).Perm (scoreList s) := he ▸ sortedScores_perm s
  have hsor := sortedScores_sorted s
  rw [he] at hsor
  have hrel := (List.sorted_cons.mp hsor).1
  have hle : ∀ x ∈ scoreList s, x ≤ a := by
    intro x hx
    have hx2 : x ∈ [a, b, c, d] := hperm.mem_iff.mpr hx
    simp only [List.mem_cons, List.not_mem_nil, or_false] at hx2
    rcases hx2 with rfl | rfl | rfl | rfl
    · exact le_refl _
    · exact hrel _ (by simp)
    · exact hrel _ (by simp)
    · exact hrel _ (by simp)
  have hmem : a ∈ scoreList s := hperm.subset (by simp)
  have hle2 : s.coding ≤ a ∧ s.reasoning ≤ a ∧ s.tools ≤ a ∧ s.chat ≤ a := by
    refine ⟨hle _ ?_, hle _ ?_, hle _ ?_, hle _ ?_⟩ <;> simp [scoreList]
  have hmem2 : a = s.coding ∨ a = s.reasoning ∨ a = s.tools ∨ a = s.chat := by
    simpa [scoreList] using hmem
  unfold maxScore
  apply le_antisymm
  · rcases hmem2 with hh | hh | hh | hh <;> rw [hh] <;> simp [le_max_iff, le_refl]
  · exact max_le (max_le hle2.1 hle2.2.1) (max_le hle2.2.2.1 hle2.2.2.2)

theorem scoreGap_eq (s : Scores) : scoreGap s = maxScore s - secondScore s := by
  obtain ⟨a, b, c, d, he⟩ := sortedScores_shape s
  rw [← sorted_head_eq_max s a b c d he]
  simp [scoreGap, secondScore, he]

theorem scoreGap_nonneg (s : Scores) : 0 ≤ scoreGap s := by
  obtain ⟨a, b, c, d, he⟩ := sortedScores_shape s
  have hsor := sortedScores_sorted s
  rw [he] at hsor
  have hba : b ≤ a := (List.sorted_cons.mp hsor).1 b (by simp)
  simp [scoreGap, he]
  linarith

/-- C3: for every text input and every combination of context hints the
confidence lies in [0,1] and equals `min(1, (top − second) + 0.3)`, and the
returned category attains the maximal bonus-adjusted score, ties resolving
to the earliest category in the order coding, reasoning, tools, chat. -/
theorem c3_argmax_and_confidence (prompt : List Char) (h : ClassifyHints) :
    (0 ≤ (classify_prompt prompt h).confidence ∧
      (classify_prompt prompt h).confidence ≤ 1) ∧
    (classify_prompt prompt h).confidence =
      min 1 (maxScore (classify_prompt prompt h).scores -
        secondScore (classify_prompt prompt h).scores + 3/10) ∧
    (∀ c, scoreOf (classify_prompt prompt h).scores c ≤
        scoreOf (classify_prompt prompt h).scores (classify_prompt prompt h).type) ∧
    (∀ c, catIdx c < catIdx (classify_prompt prompt h).type →
        scoreOf (classify_prompt prompt h).scores c <
        scoreOf (classify_prompt prompt h).scores (classify_prompt prompt h).type) := by
  have hg := scoreGap_nonneg
    (bonusScores (rawHitsOf prompt) prompt.length (containsSub fence3 prompt) h)
  have hform := scoreGap_eq
    (bonusScores (rawHitsOf prompt) prompt.length (containsSub fence3 prompt) h)
  simp only [classify_prompt]
  exact ⟨⟨le_min (by norm_num) (by linarith), min_le_left _ _⟩,
    by rw [hform], fun c => bestCat_le _ c, fun c hc => bestCat_first _ c hc⟩

/-- C9: the reported confidence always lies in [0.3, 1]: the top-minus-second
gap is non-negative and 0.3 is added before clamping at 1. -/
theorem c9_confidence_range (prompt : List Char) (h : ClassifyHints) :
    3/10 ≤ (classify_prompt prompt h).confidence ∧
      (classify_prompt prompt h).confidence ≤ 1 := by
  have hg := scoreGap_nonneg
    (bonusScores (rawHitsOf prompt) prompt.length (containsSub fence3 prompt) h)
  simp only [classify_prompt]
  exact ⟨le_min (by norm_num) (by linarith), min_le_left _ _⟩

/-! ### C7 — short prompts with zero raw hits -/

/-- Total additive bonus the context hints give to the `tools` category. -/
def toolsBonus (h : ClassifyHints) : ℚ :=
  (if h.has_tool_calls then 4/10 else 0) +
    (if h.tools_used ≠ [] then (1/10) * (min h.tools_used.length 3 : ℚ) else 0)

theorem coding_bank_size : CODING_PATTERNS.length = 13 := rfl

theorem reasoning_bank_size : REASONING_PATTERNS.length = 11 := rfl

theorem tools_bank_size : TOOLS_PATTERNS.length = 14 := rfl

theorem chat_bank_size : CHAT_PATTERNS.length = 8 := rfl

set_option maxHeartbeats 2000000 in
theorem bonusScores_zero_raw (promptLen : Nat) (fence : Bool) (h : ClassifyHints)
    (hlen : promptLen < 30) :
    (bonusScores ⟨0, 0, 0, 0⟩ promptLen fence h).chat = 5/10 ∧
    (bonusScores ⟨0, 0, 0, 0⟩ promptLen fence h).coding ≤ 4/10 ∧
    (bonusScores ⟨0, 0, 0, 0⟩ promptLen fence h).reasoning ≤ 1/10 ∧
    (bonusScores ⟨0, 0, 0, 0⟩ promptLen fence h).tools = toolsBonus h := by
  obtain ⟨htc, hcd, tu, rl⟩ := h
  simp only [bonusScores, toolsBonus, coding_bank_size, reasoning_bank_size,
    tools_bank_size, chat_bank_size]
  cases htc <;> cases hcd <;> rcases eq_or_ne tu ([] : List String) with htu | htu <;>
    by_cases hrl : 2000 < rl <;> cases fence <;> simp_all <;>
      (try rw [if_neg (by omega)]) <;> norm_num

/-- Context hints carrying the maximal tools bonus: tool calls present and
three distinct tools used. -/
def c7Hints : ClassifyHints := { has_tool_calls := true, tools_used := ["x", "y", "z"] }

/-- C7 counterexample: the one-character prompt `"a"` has zero raw hits in
all four banks and length < 30, yet with tool-call context hints the tools
score reaches 0.4 + 0.3 = 0.7 > 0.5 and `classify_prompt` returns `tools`,
not `chat`. -/
theorem c7_counterexample :
    (classify_prompt ("a".toList) c7Hints).type = TaskCat.tools := by
  have hraw : rawHitsOf ("a".toList) = ⟨0, 0, 0, 0⟩ := by decide
  have hfence : containsSub fence3 ("a".toList) = false := by decide
  have hplen : ("a".toList).length = 1 := rfl
  have hbs : bonusScores ⟨0, 0, 0, 0⟩ 1 false c7Hints =
      { coding := 0, reasoning := 0, tools := 7/10, chat := 1/2 } := by
    norm_num [bonusScores, c7Hints, coding_bank_size, reasoning_bank_size,
      tools_bank_size, chat_bank_size]
    rw [if_neg (by decide : ¬(["x", "y", "z"] = ([] : List String)))]
    norm_num
  simp only [classify_prompt, hraw, hfence, hplen, hbs]
  norm_num [bestCat]

/-- C7 amended: for every input with zero raw rule hits across all
categories and prompt length under 30, a +0.5 bonus is added to the chat
score, and `classify_prompt` returns `chat` provided the tools context
bonus (0.4 for tool calls plus 0.1 per distinct tool, capped at 3) stays
below 0.5 — in particular whenever classification is invoked without
context hints. -/
theorem c7_amended (prompt : List Char) (h : ClassifyHints)
    (hc : score_patterns prompt CODING_PATTERNS = 0)
    (hr : score_patterns prompt REASONING_PATTERNS = 0)
    (ht : score_patterns prompt TOOLS_PATTERNS = 0)
    (hch : score_patterns prompt CHAT_PATTERNS = 0)
    (hlen : prompt.length < 30)
    (htb : toolsBonus h < 5/10) :
    (classify_prompt prompt h).scores.chat = 5/10 ∧
    (classify_prompt prompt h).type = TaskCat.chat := by
  have hraw : rawHitsOf prompt = ⟨0, 0, 0, 0⟩ := by
    unfold rawHitsOf; rw [hc, hr, ht, hch]
  obtain ⟨h1, h2, h3, h4⟩ :=
    bonusScores_zero_raw prompt.length (containsSub fence3 prompt) h hlen
  have h5 : (bonusScores ⟨0, 0, 0, 0⟩ prompt.length (containsSub fence3 prompt) h).tools
      < 5/10 := by rw [h4]; exact htb
  simp only [classify_prompt, hraw]
  refine ⟨h1, ?_⟩
  simp only [bestCat]
  split_ifs <;> first | rfl | (exfalso; linarith)

theorem c7_amended_witness :
    (classify_prompt ("a".toList) {}).scores.chat = 5/10 ∧
    (classify_prompt ("a".toList) {}).type = TaskCat.chat :=
  c7_amended ("a".toList) {} (by decide) (by decide) (by decide) (by decide)
    (by decide) (by norm_num [toolsBonus])

/-! ### C6 — deduplication -/

theorem dedupGo_eq (l : List Pair) : ∀ (seen : List String) (acc : List Pair),
    dedupGo seen acc l = acc.reverse ++
      keepFirstBy (fun p => prompt_hash p.prompt)
        (l.filter (fun p => !(seenHas seen (prompt_hash p.prompt)))) := by
  induction l with
  | nil => intro seen acc; simp [dedupGo, keepFirstBy]
  | cons p rest ih =>
    intro seen acc
    simp only [dedupGo]
    by_cases hs : seenHas seen (prompt_hash p.prompt) = true
    · rw [if_pos hs, ih, List.filter_cons]
      simp [hs]
    · rw [if_neg hs, ih, List.filter_cons]
      simp only [hs, Bool.not_false, if_pos]
      rw [keepFirstBy]
      simp only [List.reverse_cons, List.append_assoc, List.cons_append,
        List.nil_append, List.filter_filter]
      congr 3
      apply List.filter_congr
      intro q _
      simp [seenHas, Bool.not_or, Bool.and_comm]

/-- The spec's scenario records. -/
def dupPairA : Pair := { prompt := "Fix the bug" }

def dupPairB : Pair := { prompt := "  FIX THE BUG  " }

/-- C6: the dedup stage keeps exactly the first record of each
canonicalisation class (trim, lowercase, sha256 truncated to 16 hex chars),
dropping later duplicates and preserving encounter order; in particular
`"Fix the bug"` and `"  FIX THE BUG  "` share one canonical hash and only
the first-encountered record survives. -/
theorem c6_dedup_keeps_first :
    (∀ ps : List Pair,
        dedupPairs ps = keepFirstBy (fun p => prompt_hash p.prompt) ps) ∧
    prompt_hash "Fix the bug" = prompt_hash "  FIX THE BUG  " ∧
    dedupPairs [dupPairA, dupPairB] = [dupPairA] := by
  have hmain : ∀ ps : List Pair,
      dedupPairs ps = keepFirstBy (fun p => prompt_hash p.prompt) ps := by
    intro ps
    rw [dedupPairs, dedupGo_eq]
    simp [seenHas]
  have hcanon : canonPrompt "  FIX THE BUG  " = canonPrompt "Fix the bug" := by decide
  have hhash : prompt_hash "Fix the bug" = prompt_hash "  FIX THE BUG  " := by
    unfold prompt_hash
    rw [hcanon]
  refine ⟨hmain, hhash, ?_⟩
  rw [hmain]
  have hAB : prompt_hash dupPairA.prompt = prompt_hash dupPairB.prompt := hhash
  rw [keepFirstBy]
  simp [hAB, keepFirstBy]

/-! ### Bounds for the `SequenceMatcher` model

The matched-length total never exceeds the length of either side, so
`ratio ≤ 1`.  `flmP` is the window invariant of a best triple `(i, j, k)`:
it starts inside the window and fits inside it on both sides. -/

def flmP (alo ahi blo bhi : Nat) (t : Nat × Nat × Nat) : Prop :=
  alo ≤ t.1 ∧ blo ≤ t.2.1 ∧ t.1 + t.2.2 ≤ ahi ∧ t.2.1 + t.2.2 ≤ bhi

/-- Row-map invariant: entries are bounded by the number of processed rows
and by the distance to the left window edge. -/
def flmJ (alo blo rows : Nat) (f : Nat → Nat) : Prop :=
  ∀ j, f j ≤ rows - alo ∧ (f j ≠ 0 → blo ≤ j ∧ f j ≤ j + 1 - blo)

theorem flmRow_inv (alo ahi blo bhi i : Nat) (j2len : Nat → Nat)
    (hi1 : alo ≤ i) (hi2 : i < ahi) (hj : flmJ alo blo i j2len) :
    ∀ (js : List Nat) (st : (Nat → Nat) × (Nat × Nat × Nat)),
      (∀ j ∈ js, blo ≤ j ∧ j < bhi) →
      flmJ alo blo (i + 1) st.1 →
      flmP alo ahi blo bhi st.2 →
      flmJ alo blo (i + 1) (flmRow j2len i js st).1 ∧
        flmP alo ahi blo bhi (flmRow j2len i js st).2 := by
  intro js
  induction js with
  | nil => intro st _ h1 h2; exact ⟨h1, h2⟩
  | cons j js ih =>
    intro st hmem h1 h2
    obtain ⟨newf, best⟩ := st
    simp only [flmRow]
    have hjb : blo ≤ j ∧ j < bhi := hmem j (by simp)
    have hprev : (if j = 0 then 0 else j2len (j - 1)) ≤ i - alo := by
      split
      · omega
      · exact (hj (j - 1)).1
    have hprevj : (if j = 0 then 0 else j2len (j - 1)) ≤ j - blo := by
      split
      · omega
      · rename_i hj0
        by_cases hz : j2len (j - 1) = 0
        · omega
        · have := (hj (j - 1)).2 hz
          omega
    refine ih _ (fun q hq => hmem q (by simp [hq])) ?_ ?_
    · -- the updated row map keeps the invariant
      intro x
      dsimp only
      split
      · rename_i hxj
        subst hxj
        constructor
        · omega
        · intro _
          omega
      · exact h1 x
    · -- the updated best triple keeps the window invariant
      obtain ⟨bi, bj, bs⟩ := best
      obtain ⟨p1, p2, p3, p4⟩ := h2
      dsimp only [flmP] at p1 p2 p3 p4 ⊢
      by_cases hlt : bs < (if j = 0 then 0 else j2len (j - 1)) + 1
      · rw [if_pos hlt]
        dsimp only
        refine ⟨?_, ?_, ?_, ?_⟩ <;> omega
      · rw [if_neg hlt]
        exact ⟨p1, p2, p3, p4⟩

theorem flmRows_inv (a : List Char) (b2j : Char → List Nat)
    (alo ahi blo bhi : Nat) :
    ∀ (cnt i : Nat) (f : Nat → Nat) (best : Nat × Nat × Nat),
      alo ≤ i → i + cnt ≤ ahi → flmJ alo blo i f →
      flmP alo ahi blo bhi best →
      flmP alo ahi blo bhi (flmRows a b2j blo bhi cnt i f best) := by
  intro cnt
  induction cnt with
  | zero => intro i f best _ _ _ hb; exact hb
  | succ c ih =>
    intro i f best hi1 hi2 hf hb
    simp only [flmRows]
    have hmem : ∀ j ∈ (b2j (a.getD i ' ')).filter
        (fun j => decide (blo ≤ j) && decide (j < bhi)), blo ≤ j ∧ j < bhi := by
      intro j hj
      have := List.of_mem_filter hj
      simp at this
      exact this
    have hrow := flmRow_inv alo ahi blo bhi i f hi1 (by omega) hf _
      ((fun _ => 0), best) hmem (fun j => by simp) hb
    exact ih (i + 1) _ _ (by omega) (by omega) hrow.1 hrow.2

theorem extLeft_inv (a b : List Char) (alo blo ahi bhi : Nat) :
    ∀ (fuel : Nat) (t : Nat × Nat × Nat),
      flmP alo ahi blo bhi t → flmP alo ahi blo bhi (extLeft a b alo blo fuel t) := by
  intro fuel
  induction fuel with
  | zero => intro t ht; exact ht
  | succ f ih =>
    intro t ht
    obtain ⟨bi, bj, bs⟩ := t
    obtain ⟨p1, p2, p3, p4⟩ := ht
    dsimp only [flmP] at p1 p2 p3 p4
    simp only [extLeft]
    split
    · rename_i hcond
      simp only [Bool.and_eq_true, decide_eq_true_eq] at hcond
      have hnew : flmP alo ahi blo bhi (bi - 1, bj - 1, bs + 1) := by
        dsimp only [flmP]
        refine ⟨?_, ?_, ?_, ?_⟩ <;> omega
      exact ih _ hnew
    · exact ⟨p1, p2, p3, p4⟩

theorem extRight_inv (a b : List Char) (alo blo ahi bhi : Nat) :
    ∀ (fuel : Nat) (t : Nat × Nat × Nat),
      flmP alo ahi blo bhi t → flmP alo ahi blo bhi (extRight a b ahi bhi fuel t) := by
  intro fuel
  induction fuel with
  | zero => intro t ht; exact ht
  | succ f ih =>
    intro t ht
    obtain ⟨bi, bj, bs⟩ := t
    obtain ⟨p1, p2, p3, p4⟩ := ht
    dsimp only [flmP] at p1 p2 p3 p4
    simp only [extRight]
    split
    · rename_i hcond
      simp only [Bool.and_eq_true, decide_eq_true_eq] at hcond
      have hnew : flmP alo ahi blo bhi (bi, bj, bs + 1) := by
        dsimp only [flmP]
        refine ⟨?_, ?_, ?_, ?_⟩ <;> omega
      exact ih _ hnew
    · exact ⟨p1, p2, p3, p4⟩

theorem flm_bounds (a b : List Char) (b2j : Char → List Nat)
    (alo ahi blo bhi : Nat) (h1 : alo ≤ ahi) (h2 : blo ≤ bhi) :
    flmP alo ahi blo bhi (find_longest_match a b b2j alo ahi blo bhi) := by
  unfold find_longest_match
  apply extRight_inv a b alo blo
  apply extLeft_inv a b alo blo ahi bhi
  have hinit : flmP alo ahi blo bhi (alo, blo, 0) := by
    dsimp only [flmP]
    refine ⟨?_, ?_, ?_, ?_⟩ <;> omega
  exact flmRows_inv a b2j alo ahi blo bhi (ahi - alo) alo _ _ (le_refl alo) (by omega)
    (fun j => by simp [flmJ]) hinit

theorem smMatchesIn_le (a b : List Char) (b2j : Char → List Nat) :
    ∀ (fuel alo ahi blo bhi : Nat), alo ≤ ahi → blo ≤ bhi →
      smMatchesIn a b b2j fuel alo ahi blo bhi ≤ min (ahi - alo) (bhi - blo) := by
  intro fuel
  induction fuel with
  | zero => intro alo ahi blo bhi _ _; simp [smMatchesIn]
  | succ f ih =>
    intro alo ahi blo bhi h1 h2
    simp only [smMatchesIn]
    have hp := flm_bounds a b b2j alo ahi blo bhi h1 h2
    set m := find_longest_match a b b2j alo ahi blo bhi with hm
    obtain ⟨p1, p2, p3, p4⟩ := hp
    by_cases hk : m.2.2 = 0
    · rw [if_pos hk]
      omega
    · rw [if_neg hk]
      have hL : (if decide (alo < m.1) && decide (blo < m.2.1)
            then smMatchesIn a b b2j f alo m.1 blo m.2.1 else 0)
          ≤ min (m.1 - alo) (m.2.1 - blo) := by
        split
        · rename_i hc
          simp only [Bool.and_eq_true, decide_eq_true_eq] at hc
          exact ih alo m.1 blo m.2.1 (by omega) (by omega)
        · omega
      have hR : (if decide (m.1 + m.2.2 < ahi) && decide (m.2.1 + m.2.2 < bhi)
            then smMatchesIn a b b2j f (m.1 + m.2.2) ahi (m.2.1 + m.2.2) bhi else 0)
          ≤ min (ahi - (m.1 + m.2.2)) (bhi - (m.2.1 + m.2.2)) := by
        split
        · rename_i hc
          simp only [Bool.and_eq_true, decide_eq_true_eq] at hc
          exact ih (m.1 + m.2.2) ahi (m.2.1 + m.2.2) bhi (by omega) (by omega)
        · omega
      omega

theorem smMatches_le (a b : List Char) :
    smMatches a b ≤ min a.length b.length := by
  have := smMatchesIn_le a b (smB2j b) (a.length + b.length + 1)
    0 a.length 0 b.length (by omega) (by omega)
  simpa [smMatches] using this

theorem seqMatchRatioQ_nonneg (a b : List Char) : 0 ≤ seqMatchRatioQ a b := by
  unfold seqMatchRatioQ
  split
  · norm_num
  · positivity

theorem seqMatchRatioQ_le_one (a b : List Char) : seqMatchRatioQ a b ≤ 1 := by
  unfold seqMatchRatioQ
  split
  · exact le_refl 1
  · rename_i hT
    have hm := smMatches_le a b
    have hpos : (0 : ℚ) < (a.length : ℚ) + (b.length : ℚ) := by
      have : 0 < a.length + b.length := Nat.pos_of_ne_zero hT
      exact_mod_cast this
    rw [div_le_one hpos]
    have h2 : 2 * smMatches a b ≤ a.length + b.length := by omega
    exact_mod_cast h2

/-! ### Bounds of the four sub-scores -/

theorem fracFloor_le (w num den : Nat) (h : num ≤ den) (hd : 0 < den) :
    fracFloor w num den ≤ w := by
  unfold fracFloor
  calc w * num / den ≤ w * den / den :=
        Nat.div_le_div_right (Nat.mul_le_mul_left w h)
    _ = w := Nat.mul_div_left w hd

theorem countP_mul_div_le {α : Type} (l : List α) (p : α → Bool) (w : Nat) :
    l.countP p * w / l.length ≤ w := by
  rcases Nat.eq_zero_or_pos l.length with h | h
  · simp [h]
  · calc l.countP p * w / l.length ≤ l.length * w / l.length :=
        Nat.div_le_div_right (Nat.mul_le_mul_right _ (List.countP_le_length _))
      _ = w := Nat.mul_div_right w h

theorem score_structure_le (cfg : EvalScoring) (task : BenchTask) (response : String) :
    score_structure cfg task response ≤ cfg.structure_weight := by
  simp only [score_structure]
  split_ifs <;>
    first
      | exact Nat.zero_le _
      | exact fracFloor_le _ _ _ (by norm_num) (by norm_num)
      | exact min_le_right _ _

theorem score_correctness_le (cfg : EvalScoring)
    (execOracle : String → Option ExecOutcome) (task : BenchTask) (response : String) :
    score_correctness cfg execOracle task response ≤ cfg.correctness_weight := by
  simp only [score_correctness]
  split_ifs <;>
    first
      | exact Nat.zero_le _
      | exact fracFloor_le _ _ _ (by norm_num) (by norm_num)
      | exact min_le_right _ _
      | exact countP_mul_div_le _ _ _

theorem floor_ratio_mul20_le (x y : List Char) :
    (⌊seqMatchRatioQ x y * 20⌋).toNat ≤ 20 := by
  have h1 := seqMatchRatioQ_le_one x y
  have h2 : seqMatchRatioQ x y * 20 ≤ (20 : ℚ) := by linarith
  have h3 : (⌊seqMatchRatioQ x y * 20⌋ : ℤ) ≤ 20 := by
    have := Int.floor_le_floor h2
    simpa using this
  exact Int.toNat_le.mpr (by exact_mod_cast h3)

theorem score_similarity_le (task : BenchTask) (response : String) :
    score_similarity task response ≤ 20 := by
  simp only [score_similarity]
  split_ifs <;>
    first
      | exact Nat.zero_le _
      | exact floor_ratio_mul20_le _ _
      | norm_num

theorem score_completeness_le (task : BenchTask) (response : String) :
    score_completeness task response ≤ 15 := by
  simp only [score_completeness]
  split_ifs <;>
    first
      | exact countP_mul_div_le _ _ _
      | norm_num

/-- C1: each sub-score is bounded by its configured weight (structure and
correctness from the domain config, similarity hard-coded 20, completeness
hard-coded 15), and `total_score` is exactly the sum of the four
sub-scores. -/
theorem c1_scores_bounded_and_total (cfg : EvalScoring)
    (execOracle : String → Option ExecOutcome) (task : BenchTask) (response : String) :
    (evaluate_task cfg execOracle task response).structure_score ≤ cfg.structure_weight ∧
    (evaluate_task cfg execOracle task response).correctness_score ≤ cfg.correctness_weight ∧
    (evaluate_task cfg execOracle task response).similarity_score ≤ 20 ∧
    (evaluate_task cfg execOracle task response).completeness_score ≤ 15 ∧
    (evaluate_task cfg execOracle task response).total_score =
      (evaluate_task cfg execOracle task response).structure_score +
      (evaluate_task cfg execOracle task response).correctness_score +
      (evaluate_task cfg execOracle task response).similarity_score +
      (evaluate_task cfg execOracle task response).completeness_score :=
  ⟨score_structure_le cfg task response,
   score_correctness_le cfg execOracle task response,
   score_similarity_le task response,
   score_completeness_le task response,
   rfl⟩

/-! ### C10 — similarity scoring and the neutral half-credit -/

/-- A benchmark task whose gold answer is the two-character text `"ad"`. -/
def simGoldTask : BenchTask := { gold_answer := "ad" }

/-- A response whose only code block is `"ab"`. -/
def simResponse : String := "```\nab```"

theorem sim_scenario_eq : score_similarity simGoldTask simResponse = 10 := by
  have hrb : extract_code_blocks simResponse.toList = ["ab".toList] := by decide
  have hgb : extract_code_blocks (simGoldTask.gold_answer.toList) = [] := by decide
  have hm : smMatches ("ab".toList) ("ad".toList) = 1 := by decide
  have hq : seqMatchRatioQ ("ab".toList) ("ad".toList) = 1/2 := by
    unfold seqMatchRatioQ
    rw [hm]
    norm_num
  have hrc : pyStrip (joinNl ["ab".toList]) = "ab".toList := by decide
  have hgc : pyStrip (simGoldTask.gold_answer.toList) = "ad".toList := by decide
  unfold score_similarity
  rw [if_neg (by decide : ¬((simGoldTask.gold_answer == "") = true))]
  rw [hrb, hgb]
  simp only [List.isEmpty, Bool.not_true, hrc, hgc, Bool.false_eq_true, if_false]
  rw [hq]
  norm_num
  rfl

/-- C10 counterexample: with gold answer `"ad"` and a response whose only
code block is `"ab"`, the similarity ratio is exactly 0.5 and
`score_similarity` returns the "neutral half-credit" 10 even though a gold
answer exists — so 10 is not returned *only* when the task has no gold
answer. -/
theorem c10_counterexample :
    score_similarity simGoldTask simResponse = 10 ∧
    ¬(simGoldTask.gold_answer = "") :=
  ⟨sim_scenario_eq, by decide⟩

/-- C10 amended: with a non-empty gold answer a response without fenced code
blocks scores 0; the half-credit 10 is returned whenever the task has no
gold answer, and can also arise with a gold answer when the similarity
ratio is exactly 0.5. -/
theorem c10_amended :
    (∀ (task : BenchTask) (response : String),
        task.gold_answer ≠ "" → extract_code_blocks response.toList = [] →
        score_similarity task response = 0) ∧
    (∀ (task : BenchTask) (response : String),
        task.gold_answer = "" → score_similarity task response = 10) ∧
    (score_similarity simGoldTask simResponse = 10 ∧ simGoldTask.gold_answer ≠ "") := by
  refine ⟨?_, ?_, sim_scenario_eq, by decide⟩
  · intro task response hg hb
    unfold score_similarity
    rw [if_neg (by simpa using hg), hb]
    simp
  · intro task response hg
    unfold score_similarity
    rw [if_pos (by simpa using hg)]

theorem c10_amended_witness :
    score_similarity { gold_answer := "x" } "no code here" = 0 ∧
    score_similarity {} "anything" = 10 :=
  ⟨c10_amended.1 { gold_answer := "x" } "no code here" (by decide) (by decide),
   c10_amended.2.1 {} "anything" rfl⟩
